import Mathlib

/-!
Verification of the net-hippie native HTTP client core (src/lib.rs).

The file gives a shallow embedding of the pure request-building,
response-normalization and error-classification logic of the Rust
extension.  The network transport (reqwest) and the Ruby runtime are
external collaborators: the transport is modelled as a parameter mapping
the built request to either a raw response or a transport error, and
Ruby values are modelled by their observable conversions (a headers
Value converts to a hash or does not; each hash entry converts to a
string or does not).
-/

namespace NetHippie

/-- ASCII lowercasing, character by character.  This models the lowercasing
applied by the Rust code (String::to_lowercase, str::to_lowercase) on the
ASCII range, which is the range exercised by HTTP header names. -/
def lowerString (s : String) : String := String.mk (s.data.map Char.toLower)

/-- ASCII uppercasing, modelling String::to_uppercase on the ASCII range. -/
def upperString (s : String) : String := String.mk (s.data.map Char.toUpper)

/-- The HTTP methods accepted by execute_request (lib.rs lines 65-72). -/
inductive Method
  | GET | POST | PUT | DELETE | PATCH
deriving DecidableEq

/-- Exception classes used when raising to Ruby: magnus runtime_error and
arg_error are the only two classes the extension uses. -/
inductive ExcClass
  | runtimeError | argError
deriving DecidableEq

/-- An error surfaced to the Ruby caller: an exception class together with
a message string (magnus Error::new(class, message)). -/
structure MagnusError where
  exc : ExcClass
  message : String
deriving DecidableEq

/-- The observable face of a reqwest transport error: the two predicates the
classifier consults and the rendered description (Error::to_string). -/
structure ReqwestError where
  is_timeout : Bool
  is_connect : Bool
  description : String
deriving DecidableEq

/-- Error classification of RustClient::map_reqwest_error (lib.rs 114-122):
timeout errors map to the Net::ReadTimeout sentinel, connect errors to the
Errno::ECONNREFUSED sentinel, everything else carries its own description. -/
def map_reqwest_error (e : ReqwestError) : MagnusError :=
  if e.is_timeout then ⟨ExcClass.runtimeError, "Net::ReadTimeout"⟩
  else if e.is_connect then ⟨ExcClass.runtimeError, "Errno::ECONNREFUSED"⟩
  else ⟨ExcClass.runtimeError, e.description⟩

/-- A Ruby value as seen through String::try_convert: either it converts to
a string or it does not. -/
structure RubyVal where
  asString : Option String
deriving DecidableEq

/-- The headers argument as seen through RHash::from_value: either it is a
hash, yielding its entry list, or it is not a hash at all. -/
structure HeadersVal where
  asHash : Option (List (RubyVal × RubyVal))
deriving DecidableEq

/-- The request handed to the transport: method, url, the successfully
converted header pairs, and the body (absent when the body string was
empty, lib.rs 86-89). -/
structure BuiltRequest where
  method : Method
  url : String
  headers : List (String × String)
  body : Option String
deriving DecidableEq

/-- Header collection of lib.rs 77-84: if the headers Value is a hash, keep
each entry whose key and value both convert to strings; a non-hash Value
contributes nothing. -/
def collectHeaders (hv : HeadersVal) : List (String × String) :=
  match hv.asHash with
  | none => []
  | some pairs =>
      pairs.filterMap fun kv =>
        match kv.1.asString, kv.2.asString with
        | some ks, some vs => some (ks, vs)
        | _, _ => none

/-- Request construction of lib.rs 74-89: attach the convertible headers and
attach the body only when it is non-empty. -/
def buildRequest (m : Method) (url : String) (hv : HeadersVal) (body : String) : BuiltRequest :=
  { method := m
    url := url
    headers := collectHeaders hv
    body := if body.isEmpty then none else some body }

/-- A string-keyed map with insert-overwrite semantics, modelling the
std::collections::HashMap of response headers. -/
def SMap : Type := String → Option String

/-- The empty map (HashMap::new). -/
def SMap.empty : SMap := fun _ => none

/-- Insertion overwrites any previous binding of the key (HashMap::insert). -/
def SMap.insert (m : SMap) (k v : String) : SMap :=
  fun q => if q = k then some v else m q

/-- Lookup (HashMap::get). -/
def SMap.get (m : SMap) (k : String) : Option String := m k

/-- The normalized response handed back to Ruby (lib.rs 8-35). -/
structure RustResponse where
  status : Nat
  headers : SMap
  body : String

/-- RustResponse::code (lib.rs 24-26): the decimal string of the status. -/
def RustResponse.code (r : RustResponse) : String := toString r.status

/-- RustResponse::get_header (lib.rs 32-34): lowercase the requested name,
then look it up in the stored map. -/
def RustResponse.get_header (r : RustResponse) (name : String) : Option String :=
  r.headers.get (lowerString name)

/-- A raw response header value as seen through HeaderValue::to_str: valid
text or not. -/
structure HeaderValue where
  toStr : Option String
deriving DecidableEq

/-- The raw transport response before normalization: numeric status, the raw
header pairs, and the body read outcome (Response::text, which can fail
mid-transfer with a rendered error description). -/
structure RawResponse where
  status : Nat
  headers : List (String × HeaderValue)
  text : Except String String

/-- One step of the response header loop (lib.rs 102-106): a value that is
valid text is inserted under the lowercased key, otherwise it is skipped. -/
def insertHeader (m : SMap) (kv : String × HeaderValue) : SMap :=
  match kv.2.toStr with
  | some vs => m.insert (lowerString kv.1) vs
  | none => m

/-- The response header loop of RustClient::convert_response. -/
def convertHeaders (hs : List (String × HeaderValue)) : SMap :=
  hs.foldl insertHeader SMap.empty

/-- RustClient::convert_response (lib.rs 98-112): take the status, normalize
the headers, then read the body; a body read failure aborts with a
runtime_error carrying the description, and only a fully read body yields a
RustResponse. -/
def convert_response (raw : RawResponse) : Except MagnusError RustResponse :=
  let status := raw.status
  let headers := convertHeaders raw.headers
  match raw.text with
  | Except.error e => Except.error ⟨ExcClass.runtimeError, e⟩
  | Except.ok body => Except.ok ⟨status, headers, body⟩

/-- The transport: reqwest send on the built request, producing either a raw
response or a transport error.  It is the external collaborator of the
embedding. -/
def Transport : Type := BuiltRequest → Except ReqwestError RawResponse

/-- The post-validation phase of execute_request (lib.rs 74-95): build the
request, send it through the transport, classify a send failure, normalize
a received response. -/
def dispatch (t : Transport) (m : Method) (url : String) (hv : HeadersVal)
    (body : String) : Except MagnusError RustResponse :=
  match t (buildRequest m url hv body) with
  | Except.error e => Except.error (map_reqwest_error e)
  | Except.ok raw => convert_response raw

/-- Method validation of lib.rs 65-72: uppercase the method string and match
it against the five supported verbs. -/
def parseMethod (method_str : String) : Option Method :=
  let u := upperString method_str
  if u = "GET" then some Method.GET
  else if u = "POST" then some Method.POST
  else if u = "PUT" then some Method.PUT
  else if u = "DELETE" then some Method.DELETE
  else if u = "PATCH" then some Method.PATCH
  else none

/-- RustClient::execute_request (lib.rs 58-96): validate the method, failing
with an arg_error before anything else happens, then dispatch. -/
def execute_request (t : Transport) (method_str url : String) (hv : HeadersVal)
    (body : String) : Except MagnusError RustResponse :=
  match parseMethod method_str with
  | none => Except.error ⟨ExcClass.argError, "Invalid HTTP method"⟩
  | some m => dispatch t m url hv body

/-- Redirect policy of the transport builder. -/
inductive RedirectPolicy
  | none
  | limited (max : Nat)
deriving DecidableEq

/-- The configuration bound to the transport at construction. -/
structure ClientConfig where
  timeout_secs : Nat
  connect_timeout_secs : Nat
  redirect : RedirectPolicy
deriving DecidableEq

/-- RustClient::new (lib.rs 44-56): the transport is built with a 10 second
request timeout, a 10 second connect timeout, and redirects disabled. -/
def RustClient.new : ClientConfig :=
  { timeout_secs := 10
    connect_timeout_secs := 10
    redirect := RedirectPolicy.none }

/-- RustClient::get (lib.rs 124-126). -/
def RustClient.get (t : Transport) (url : String) (hv : HeadersVal) (body : String) :
    Except MagnusError RustResponse :=
  execute_request t "GET" url hv body

/-- RustClient::post (lib.rs 128-130). -/
def RustClient.post (t : Transport) (url : String) (hv : HeadersVal) (body : String) :
    Except MagnusError RustResponse :=
  execute_request t "POST" url hv body

/-- RustClient::put (lib.rs 132-134). -/
def RustClient.put (t : Transport) (url : String) (hv : HeadersVal) (body : String) :
    Except MagnusError RustResponse :=
  execute_request t "PUT" url hv body

/-- RustClient::delete (lib.rs 136-138). -/
def RustClient.delete (t : Transport) (url : String) (hv : HeadersVal) (body : String) :
    Except MagnusError RustResponse :=
  execute_request t "DELETE" url hv body

/-- RustClient::patch (lib.rs 140-142). -/
def RustClient.patch (t : Transport) (url : String) (hv : HeadersVal) (body : String) :
    Except MagnusError RustResponse :=
  execute_request t "PATCH" url hv body

/-- The spec's error taxonomy, stated in its own words for comparison with
the sentinel representation the code actually produces. -/
inductive ErrorClass
  | invalidMethod
  | constructionFailure
  | timeout
  | connectionRefused
  | other (message : String)
deriving DecidableEq

/-- The spec's ErrorClassifier, following its words: a timeout failure is
Timeout, a connection-stage failure is ConnectionRefused, anything else is
Other carrying the underlying description. -/
def specClassify (e : ReqwestError) : ErrorClass :=
  if e.is_timeout then ErrorClass.timeout
  else if e.is_connect then ErrorClass.connectionRefused
  else ErrorClass.other e.description

/-- How the code renders a taxonomy member to the Ruby caller. -/
def renderError : ErrorClass → MagnusError
  | ErrorClass.invalidMethod => ⟨ExcClass.argError, "Invalid HTTP method"⟩
  | ErrorClass.constructionFailure => ⟨ExcClass.runtimeError, "construction failure"⟩
  | ErrorClass.timeout => ⟨ExcClass.runtimeError, "Net::ReadTimeout"⟩
  | ErrorClass.connectionRefused => ⟨ExcClass.runtimeError, "Errno::ECONNREFUSED"⟩
  | ErrorClass.other msg => ⟨ExcClass.runtimeError, msg⟩

/-- Status projection of a call outcome. -/
def resultStatus (res : Except MagnusError RustResponse) : Option Nat :=
  match res with
  | Except.ok r => some r.status
  | Except.error _ => none

/-- Code-string projection of a call outcome. -/
def resultCode (res : Except MagnusError RustResponse) : Option String :=
  match res with
  | Except.ok r => some r.code
  | Except.error _ => none

/-- Header projection of a call outcome. -/
def resultHeader (res : Except MagnusError RustResponse) (n : String) : Option String :=
  match res with
  | Except.ok r => r.get_header n
  | Except.error _ => none

/-- A transport whose answer is fixed, used to instantiate theorems. -/
def okTransport (raw : RawResponse) : Transport := fun _ => Except.ok raw

/-- A transport that fails with a fixed transport error. -/
def errTransport (e : ReqwestError) : Transport := fun _ => Except.error e

/-- A sample raw response with one good and one undecodable header. -/
def sampleRaw : RawResponse :=
  ⟨200, [("X-Test", ⟨some "abc"⟩), ("Bad", ⟨none⟩)], Except.ok "hello"⟩

/-- The normalization of sampleRaw. -/
def sampleResp : RustResponse := ⟨200, convertHeaders sampleRaw.headers, "hello"⟩

/-- A raw redirect response: status 302 with a location header. -/
def redirectRaw : RawResponse :=
  ⟨302, [("Location", ⟨some "http://elsewhere.test"⟩)], Except.ok ""⟩

/-- The normalization of redirectRaw. -/
def redirectResp : RustResponse := ⟨302, convertHeaders redirectRaw.headers, ""⟩

/-- A raw response whose body read fails mid-transfer. -/
def failBodyRaw : RawResponse :=
  ⟨200, [("X-Test", ⟨some "abc"⟩)], Except.error "connection dropped"⟩

/-- A raw response with a status outside 100-599 (the underlying HTTP status
type admits 100-999). -/
def status700Raw : RawResponse := ⟨700, [], Except.ok "x"⟩


/-! Helper lemmas shared by the claim theorems. -/

/-- Reading back a valid code point from Char.ofNat. -/
theorem toNat_ofNat_valid (n : Nat) (h : n.isValidChar) : (Char.ofNat n).toNat = n := by
  rw [Char.ofNat, dif_pos h]
  simp [Char.ofNatAux, Char.toNat, UInt32.toNat, BitVec.toNat_ofNatLt]

/-- ASCII lowercasing of a character is idempotent. -/
theorem charToLower_idem (c : Char) : c.toLower.toLower = c.toLower := by
  simp only [Char.toLower]
  split
  · next h =>
    have hv : (c.toNat + 32).isValidChar := by
      left
      have := h.2
      omega
    rw [toNat_ofNat_valid _ hv]
    rw [if_neg]
    omega
  · rfl

/-- ASCII lowercasing of a string is idempotent. -/
theorem lowerString_idem (s : String) : lowerString (lowerString s) = lowerString s := by
  have hf : Char.toLower ∘ Char.toLower = Char.toLower := funext charToLower_idem
  simp [lowerString, List.map_map, hf]

/-- Lookup after insert. -/
theorem SMap.get_insert (m : SMap) (k v q : String) :
    (m.insert k v).get q = if q = k then some v else m.get q := rfl

/-- Every key bound by the response header loop is a fixed point of
lowercasing, provided the accumulator already satisfies that. -/
theorem foldl_insertHeader_keys_lower (hs : List (String × HeaderValue)) (m : SMap)
    (hm : ∀ k v, m.get k = some v → lowerString k = k) :
    ∀ k v, (hs.foldl insertHeader m).get k = some v → lowerString k = k := by
  induction hs generalizing m with
  | nil => exact hm
  | cons kv rest ih =>
    intro k v hk
    refine ih (insertHeader m kv) ?_ k v hk
    intro k2 v2 hk2
    unfold insertHeader at hk2
    cases hmv : kv.2.toStr with
    | some vs =>
      rw [hmv] at hk2
      simp only [SMap.get, SMap.insert] at hk2
      by_cases hq : k2 = lowerString kv.1
      · rw [hq]
        exact lowerString_idem kv.1
      · rw [if_neg hq] at hk2
        exact hm _ _ hk2
    | none =>
      rw [hmv] at hk2
      exact hm _ _ hk2

/-- Every key of a normalized header map is a fixed point of lowercasing. -/
theorem convertHeaders_keys_lower (hs : List (String × HeaderValue)) :
    ∀ k v, (convertHeaders hs).get k = some v → lowerString k = k := by
  refine foldl_insertHeader_keys_lower hs SMap.empty ?_
  intro k v h
  cases h

/-- Inversion of a successful response normalization. -/
theorem convert_response_ok (raw : RawResponse) (r : RustResponse)
    (h : convert_response raw = Except.ok r) :
    r.status = raw.status ∧ r.headers = convertHeaders raw.headers ∧
      raw.text = Except.ok r.body := by
  revert h
  unfold convert_response
  cases ht : raw.text with
  | error e =>
    intro h
    cases h
  | ok b =>
    intro h
    injection h with h2
    rw [← h2]
    exact ⟨rfl, rfl, rfl⟩

/-- Inversion of a successful call: a Response comes from a valid method, a
transport answer, and a successful normalization of that answer. -/
theorem execute_request_ok (t : Transport) (ms u : String) (hv : HeadersVal) (b : String)
    (r : RustResponse) (h : execute_request t ms u hv b = Except.ok r) :
    ∃ M raw, parseMethod ms = some M ∧ t (buildRequest M u hv b) = Except.ok raw ∧
      convert_response raw = Except.ok r := by
  cases hp : parseMethod ms with
  | none =>
    simp only [execute_request, hp] at h
    exact Except.noConfusion h
  | some M =>
    simp only [execute_request, hp] at h
    cases htr : t (buildRequest M u hv b) with
    | error e =>
      simp only [dispatch, htr] at h
      exact Except.noConfusion h
    | ok raw =>
      simp only [dispatch, htr] at h
      exact ⟨M, raw, rfl, htr, h⟩


/-! Claim theorems. -/

/-- C1: execute_request first uppercases the method string and matches it
against GET, POST, PUT, DELETE and PATCH; when the uppercased form is not in
that set the call fails with the Invalid HTTP method arg_error and the
transport is never dispatched (the outcome is the same for every transport);
when it is in the set the call proceeds to dispatch with the matched
method. -/
theorem method_validation (ms : String) (t t2 : Transport) (u : String)
    (hv : HeadersVal) (b : String) :
    (parseMethod ms = none ↔
      upperString ms ∉ (["GET", "POST", "PUT", "DELETE", "PATCH"] : List String)) ∧
    (parseMethod ms = none →
      execute_request t ms u hv b =
        Except.error ⟨ExcClass.argError, "Invalid HTTP method"⟩ ∧
      execute_request t ms u hv b = execute_request t2 ms u hv b) ∧
    (∀ M, parseMethod ms = some M →
      execute_request t ms u hv b = dispatch t M u hv b ∧
      (buildRequest M u hv b).method = M) := by
  refine ⟨?_, ?_, ?_⟩
  · simp only [parseMethod]
    split_ifs with g1 g2 g3 g4 g5 <;> simp_all
  · intro hp
    exact ⟨by simp only [execute_request, hp], by simp only [execute_request, hp]⟩
  · intro M hp
    exact ⟨by simp only [execute_request, hp], rfl⟩

/-- C1 witness: the method string foo is rejected with the arg_error and the
result does not depend on the transport. -/
theorem method_validation_witness :
    execute_request (errTransport ⟨false, false, "unused"⟩) "foo"
        "http://example.test" ⟨some []⟩ "" =
      Except.error ⟨ExcClass.argError, "Invalid HTTP method"⟩ :=
  ((method_validation "foo" (errTransport ⟨false, false, "unused"⟩)
      (errTransport ⟨false, false, "unused"⟩) "http://example.test" ⟨some []⟩ "").2.1
    (by decide)).1

/-- C2: every key stored in the header map of a Response produced by a call
is a fixed point of lowercasing; get_header lowercases its argument before
the lookup; hence a stored pair is found under every name whose lowercase
form equals the stored key, and a name whose lowercase form is unbound is
absent. -/
theorem response_header_case_insensitive (t : Transport) (ms u : String)
    (hv : HeadersVal) (b : String) (r : RustResponse)
    (h : execute_request t ms u hv b = Except.ok r) :
    (∀ k v, r.headers.get k = some v → lowerString k = k) ∧
    (∀ n, r.get_header n = r.headers.get (lowerString n)) ∧
    (∀ k v n, r.headers.get k = some v → lowerString n = k → r.get_header n = some v) ∧
    (∀ n, r.headers.get (lowerString n) = none → r.get_header n = none) := by
  obtain ⟨M, raw, hp, htr, hc⟩ := execute_request_ok t ms u hv b r h
  obtain ⟨hs, hh, hb⟩ := convert_response_ok raw r hc
  refine ⟨?_, fun n => rfl, ?_, fun n hn => hn⟩
  · intro k v hk
    rw [hh] at hk
    exact convertHeaders_keys_lower raw.headers k v hk
  · intro k v n hk hn
    unfold RustResponse.get_header
    rw [hn]
    exact hk

/-- C2 witness: a response carrying the raw header X-Test: abc answers the
lookup X-TEST with abc. -/
theorem response_header_case_insensitive_witness :
    resultHeader (execute_request (okTransport sampleRaw) "get"
      "http://example.test" ⟨some []⟩ "") "X-TEST" = some "abc" := by
  have h : execute_request (okTransport sampleRaw) "get" "http://example.test"
      ⟨some []⟩ "" = Except.ok sampleResp := rfl
  have h2 := (response_header_case_insensitive (okTransport sampleRaw) "get"
      "http://example.test" ⟨some []⟩ "" sampleResp h).2.2.1
    "x-test" "abc" "X-TEST" (by decide) (by decide)
  rw [h]
  exact h2

/-- C3 counterexample: the caller-visible error of a timeout failure
coincides with that of a non-timeout, non-connect failure whose description
happens to be the Net::ReadTimeout sentinel, although the two failures fall
in different taxonomy classes; the taxonomy members are therefore not always
distinguishable from the raised error. -/
theorem error_sentinel_collision :
    (⟨true, false, "operation timed out"⟩ : ReqwestError).is_timeout = true ∧
    (⟨false, false, "Net::ReadTimeout"⟩ : ReqwestError).is_timeout = false ∧
    (⟨false, false, "Net::ReadTimeout"⟩ : ReqwestError).is_connect = false ∧
    specClassify ⟨true, false, "operation timed out"⟩ ≠
      specClassify ⟨false, false, "Net::ReadTimeout"⟩ ∧
    map_reqwest_error ⟨true, false, "operation timed out"⟩ =
      map_reqwest_error ⟨false, false, "Net::ReadTimeout"⟩ :=
  ⟨rfl, rfl, rfl, by decide, rfl⟩

/-- C3 amended: every transport failure is classified into exactly one of
Timeout, ConnectionRefused and Other(description), testing is_timeout first
and is_connect second; the raised error is the sentinel rendering of that
class; it always differs from the InvalidMethod error; and two transport
failures with distinct classes raise distinct errors provided neither
description equals one of the two sentinel strings. -/
theorem error_classification (e e2 : ReqwestError) :
    map_reqwest_error e = renderError (specClassify e) ∧
    (specClassify e = ErrorClass.timeout ∨
      specClassify e = ErrorClass.connectionRefused ∨
      specClassify e = ErrorClass.other e.description) ∧
    (specClassify e = ErrorClass.timeout ↔ e.is_timeout = true) ∧
    (specClassify e = ErrorClass.connectionRefused ↔
      e.is_timeout = false ∧ e.is_connect = true) ∧
    (specClassify e = ErrorClass.other e.description ↔
      e.is_timeout = false ∧ e.is_connect = false) ∧
    map_reqwest_error e ≠ ⟨ExcClass.argError, "Invalid HTTP method"⟩ ∧
    (e.description ≠ "Net::ReadTimeout" → e.description ≠ "Errno::ECONNREFUSED" →
      e2.description ≠ "Net::ReadTimeout" → e2.description ≠ "Errno::ECONNREFUSED" →
      map_reqwest_error e = map_reqwest_error e2 → specClassify e = specClassify e2) := by
  obtain ⟨et, ec, ed⟩ := e
  obtain ⟨e2t, e2c, e2d⟩ := e2
  cases et <;> cases ec <;> cases e2t <;> cases e2c <;>
    simp_all [map_reqwest_error, specClassify, renderError] <;>
    (intro a1 a2 a3 a4; first | exact fun hx => a3 hx.symm | exact fun hx => a4 hx.symm)

/-- C3 witness: a connect-stage failure is classified ConnectionRefused and
raised as the Errno::ECONNREFUSED sentinel. -/
theorem error_classification_witness :
    map_reqwest_error ⟨false, true, "connection refused"⟩ =
      ⟨ExcClass.runtimeError, "Errno::ECONNREFUSED"⟩ ∧
    specClassify ⟨false, true, "connection refused"⟩ = ErrorClass.connectionRefused := by
  have h := error_classification ⟨false, true, "connection refused"⟩ ⟨true, false, "x"⟩
  have hcr := h.2.2.2.1.mpr ⟨rfl, rfl⟩
  exact ⟨by rw [h.1, hcr]; rfl, hcr⟩

/-- C4: a body read failure turns the whole call into the runtime_error
carrying the failure description; a Response exists exactly when the body
was read to completion, and then it carries the status, the normalized
headers and the full body. -/
theorem no_partial_response (raw : RawResponse) (t : Transport) (ms u : String)
    (hv : HeadersVal) (b : String) (M : Method) (e : String) :
    (raw.text = Except.error e →
      convert_response raw = Except.error ⟨ExcClass.runtimeError, e⟩) ∧
    (∀ bd, raw.text = Except.ok bd →
      convert_response raw = Except.ok ⟨raw.status, convertHeaders raw.headers, bd⟩) ∧
    ((∃ r, convert_response raw = Except.ok r) ↔ ∃ bd, raw.text = Except.ok bd) ∧
    (parseMethod ms = some M → t (buildRequest M u hv b) = Except.ok raw →
      raw.text = Except.error e →
      execute_request t ms u hv b = Except.error ⟨ExcClass.runtimeError, e⟩) := by
  refine ⟨?_, ?_, ?_, ?_⟩
  · intro ht
    simp only [convert_response, ht]
  · intro bd ht
    simp only [convert_response, ht]
  · constructor
    · rintro ⟨r, hr⟩
      obtain ⟨-, -, hb⟩ := convert_response_ok raw r hr
      exact ⟨r.body, hb⟩
    · rintro ⟨bd, ht⟩
      exact ⟨⟨raw.status, convertHeaders raw.headers, bd⟩, by simp only [convert_response, ht]⟩
  · intro hp htr ht
    simp only [execute_request, hp, dispatch, htr, convert_response, ht]

/-- C4 witness: a call whose body read drops mid-transfer returns only the
classified error. -/
theorem no_partial_response_witness :
    execute_request (okTransport failBodyRaw) "GET" "http://example.test" ⟨some []⟩ "" =
      Except.error ⟨ExcClass.runtimeError, "connection dropped"⟩ :=
  (no_partial_response failBodyRaw (okTransport failBodyRaw) "GET"
      "http://example.test" ⟨some []⟩ "" Method.GET "connection dropped").2.2.2
    (by decide) rfl rfl

/-- C5: the transport is configured at construction with redirect policy
none; a 302 raw response is normalized and returned as-is with code 302;
and the call outcome depends on the transport only through its answer to
the single built request, so no second request is observable. -/
theorem redirect_suppression (t t2 : Transport) (ms u : String) (hv : HeadersVal)
    (b : String) (M : Method) (raw : RawResponse) (r : RustResponse) :
    RustClient.new.redirect = RedirectPolicy.none ∧
    (parseMethod ms = some M → t (buildRequest M u hv b) = Except.ok raw →
      raw.status = 302 → convert_response raw = Except.ok r →
      execute_request t ms u hv b = Except.ok r ∧ r.status = 302 ∧ r.code = "302") ∧
    ((∀ M2, parseMethod ms = some M2 →
        t (buildRequest M2 u hv b) = t2 (buildRequest M2 u hv b)) →
      execute_request t ms u hv b = execute_request t2 ms u hv b) := by
  refine ⟨rfl, ?_, ?_⟩
  · intro hp htr h302 hc
    obtain ⟨hs, -, -⟩ := convert_response_ok raw r hc
    have hst : r.status = 302 := by rw [hs, h302]
    refine ⟨by simp only [execute_request, hp, dispatch, htr, hc], hst, ?_⟩
    unfold RustResponse.code
    rw [hst]
    decide
  · intro hagree
    cases hp : parseMethod ms with
    | none => simp only [execute_request, hp]
    | some M2 => simp only [execute_request, hp, dispatch, hagree M2 hp]

/-- C5 witness: with redirects disabled at construction, a raw 302 response
surfaces with code 302. -/
theorem redirect_suppression_witness :
    RustClient.new.redirect = RedirectPolicy.none ∧
    resultCode (execute_request (okTransport redirectRaw) "GET"
      "http://example.test" ⟨some []⟩ "") = some "302" := by
  have h := redirect_suppression (okTransport redirectRaw) (okTransport redirectRaw)
    "GET" "http://example.test" ⟨some []⟩ "" Method.GET redirectRaw redirectResp
  have h2 := h.2.1 (by decide) rfl rfl rfl
  refine ⟨h.1, ?_⟩
  rw [h2.1]
  show some redirectResp.code = some "302"
  rw [h2.2.2]

/-- C6: the built request carries a body exactly when the body string is
non-empty; an empty body string results in no body at all. -/
theorem empty_body_omitted (M : Method) (u : String) (hv : HeadersVal) (b : String) :
    ((buildRequest M u hv b).body = none ↔ b = "") ∧
    (b ≠ "" → (buildRequest M u hv b).body = some b) := by
  have hb : (buildRequest M u hv b).body = if b.isEmpty then none else some b := rfl
  constructor
  · rw [hb]
    constructor
    · intro hnone
      by_cases h : b.isEmpty
      · exact (String.isEmpty_iff b).mp h
      · rw [if_neg h] at hnone
        exact absurd hnone (by simp)
    · intro he
      rw [if_pos ((String.isEmpty_iff b).mpr he)]
  · intro hne
    rw [hb, if_neg (fun he => hne ((String.isEmpty_iff b).mp he))]

/-- C6 witness: the body x is attached, the empty body is omitted. -/
theorem empty_body_omitted_witness :
    (buildRequest Method.GET "http://example.test" ⟨some []⟩ "x").body = some "x" ∧
    (buildRequest Method.GET "http://example.test" ⟨some []⟩ "").body = none := by
  constructor
  · exact (empty_body_omitted Method.GET "http://example.test" ⟨some []⟩ "x").2 (by decide)
  · exact (empty_body_omitted Method.GET "http://example.test" ⟨some []⟩ "").1.mpr rfl

/-- C7: a caller-supplied header pair whose key or value does not convert to
a string leaves the built request exactly as if the pair were absent, while
convertible pairs are all collected; on the response side a header whose
value is not valid text leaves the normalized map exactly as if the header
were absent, while a header with valid text is inserted under its
lowercased key; no bad entry fails the call. -/
theorem invalid_header_entries_dropped (M : Method) (u b : String)
    (p1 p2 : List (RubyVal × RubyVal)) (k v : RubyVal) (ks vs : String)
    (h1 h2 : List (String × HeaderValue)) (hk : String) (hval : HeaderValue) :
    (k.asString = none ∨ v.asString = none →
      buildRequest M u ⟨some (p1 ++ (k, v) :: p2)⟩ b =
        buildRequest M u ⟨some (p1 ++ p2)⟩ b) ∧
    (collectHeaders ⟨some (p1 ++ (⟨some ks⟩, ⟨some vs⟩) :: p2)⟩ =
      collectHeaders ⟨some p1⟩ ++ (ks, vs) :: collectHeaders ⟨some p2⟩) ∧
    (hval.toStr = none →
      convertHeaders (h1 ++ (hk, hval) :: h2) = convertHeaders (h1 ++ h2)) ∧
    (convertHeaders (h1 ++ [(hk, ⟨some vs⟩)])).get (lowerString hk) = some vs := by
  refine ⟨?_, ?_, ?_, ?_⟩
  · intro hbad
    have hcoll : collectHeaders ⟨some (p1 ++ (k, v) :: p2)⟩ =
        collectHeaders ⟨some (p1 ++ p2)⟩ := by
      rcases hbad with hb | hb
      · simp [collectHeaders, List.filterMap_append, List.filterMap_cons, hb]
      · cases hka : k.asString <;>
          simp [collectHeaders, List.filterMap_append, List.filterMap_cons, hb, hka]
    unfold buildRequest
    rw [hcoll]
  · simp [collectHeaders, List.filterMap_append, List.filterMap_cons]
  · intro hbad
    simp only [convertHeaders, List.foldl_append, List.foldl_cons]
    congr 1
    simp only [insertHeader, hbad]
  · simp only [convertHeaders, List.foldl_append, List.foldl_cons, List.foldl_nil,
      insertHeader]
    simp [SMap.get, SMap.insert]

/-- C7 witness: an unconvertible request header pair is dropped while the
rest of the call is unchanged, and an undecodable response header is skipped
while a valid one is found. -/
theorem invalid_header_entries_dropped_witness :
    buildRequest Method.GET "http://example.test"
        ⟨some [(⟨none⟩, ⟨some "v"⟩), (⟨some "A"⟩, ⟨some "b"⟩)]⟩ "" =
      buildRequest Method.GET "http://example.test" ⟨some [(⟨some "A"⟩, ⟨some "b"⟩)]⟩ "" ∧
    (convertHeaders [("Bad", ⟨none⟩), ("X-Test", ⟨some "abc"⟩)]).get "x-test" = some "abc" := by
  constructor
  · exact (invalid_header_entries_dropped Method.GET "http://example.test" ""
      [] [(⟨some "A"⟩, ⟨some "b"⟩)] ⟨none⟩ ⟨some "v"⟩ "x" "x" [] [] "x" ⟨none⟩).1
      (Or.inl rfl)
  · have h4 := (invalid_header_entries_dropped Method.GET "http://example.test" ""
      [] [] ⟨none⟩ ⟨none⟩ "x" "abc" [("Bad", ⟨none⟩)] [] "X-Test" ⟨none⟩).2.2.2
    have hl : lowerString "X-Test" = "x-test" := by decide
    rw [hl] at h4
    exact h4

/-- C8: each verb operation equals execute_request with its method string
fixed. -/
theorem verb_wrappers (t : Transport) (u : String) (hv : HeadersVal) (b : String) :
    RustClient.get t u hv b = execute_request t "GET" u hv b ∧
    RustClient.post t u hv b = execute_request t "POST" u hv b ∧
    RustClient.put t u hv b = execute_request t "PUT" u hv b ∧
    RustClient.delete t u hv b = execute_request t "DELETE" u hv b ∧
    RustClient.patch t u hv b = execute_request t "PATCH" u hv b :=
  ⟨rfl, rfl, rfl, rfl, rfl⟩

/-- C9 counterexample: a raw status of 700, which the underlying HTTP status
type admits, flows through to the returned Response unchanged, so a Response
status is not always at most 599. -/
theorem status_range_counterexample :
    resultStatus (execute_request (okTransport status700Raw) "GET"
      "http://example.test" ⟨some []⟩ "") = some 700 ∧
    resultCode (execute_request (okTransport status700Raw) "GET"
      "http://example.test" ⟨some []⟩ "") = some "700" ∧
    ¬ (700 ≤ 599) :=
  ⟨rfl, rfl, by decide⟩

/-- C9 amended: a returned Response carries exactly the status delivered by
the transport, with no range check of its own; under the transport-side
invariant that a status lies in 100-999 the Response status lies in 100-999;
and code always returns the decimal string of the status. -/
theorem status_passthrough (t : Transport) (ms u : String) (hv : HeadersVal)
    (b : String) (r : RustResponse)
    (h : execute_request t ms u hv b = Except.ok r) :
    r.code = toString r.status ∧
    ∃ M raw, parseMethod ms = some M ∧ t (buildRequest M u hv b) = Except.ok raw ∧
      r.status = raw.status ∧
      (100 ≤ raw.status ∧ raw.status ≤ 999 → 100 ≤ r.status ∧ r.status ≤ 999) := by
  obtain ⟨M, raw, hp, htr, hc⟩ := execute_request_ok t ms u hv b r h
  obtain ⟨hs, -, -⟩ := convert_response_ok raw r hc
  exact ⟨rfl, M, raw, hp, htr, hs, fun hr => by rw [hs]; exact hr⟩

/-- C9 witness: a raw 200 response yields code 200. -/
theorem status_passthrough_witness :
    resultCode (execute_request (okTransport sampleRaw) "GET"
      "http://example.test" ⟨some []⟩ "") = some "200" := by
  have h : execute_request (okTransport sampleRaw) "GET" "http://example.test"
      ⟨some []⟩ "" = Except.ok sampleResp := rfl
  have h2 := (status_passthrough (okTransport sampleRaw) "GET" "http://example.test"
      ⟨some []⟩ "" sampleResp h).1
  rw [h]
  show some sampleResp.code = some "200"
  rw [h2]
  decide

/-- C10: a headers argument that is not a hash contributes no headers: the
built request and the whole call coincide with those of an empty header
hash, so a malformed container never fails the call. -/
theorem malformed_header_container_ignored (t : Transport) (ms u : String)
    (M : Method) (b : String) :
    collectHeaders ⟨none⟩ = [] ∧
    (buildRequest M u ⟨none⟩ b).headers = [] ∧
    buildRequest M u ⟨none⟩ b = buildRequest M u ⟨some []⟩ b ∧
    execute_request t ms u ⟨none⟩ b = execute_request t ms u ⟨some []⟩ b := by
  refine ⟨rfl, rfl, rfl, ?_⟩
  cases hp : parseMethod ms with
  | none => simp only [execute_request, hp]
  | some M2 =>
    simp only [execute_request, hp]
    rfl

end NetHippie
